import Mathlib

/-!
Verification of the LBANN layer-execution core: entrywise activation layers
(identity, rectified-linear), the dropout regularizer (CPU and GPU paths),
and the covariance layer's shape check, shallowly embedded from the C++
sources.  Numeric data is modelled over `ℚ`; local matrices are flattened
into `List ℚ`.
-/

namespace Lbann

/-- Execution mode of the model (`execution_mode` enumeration); layers query
it each pass.  Only `training` enables dropout. -/
inductive ExecutionMode
  | training
  | validation
  | testing
  deriving DecidableEq

/-- A layer's output buffer after a forward pass: either freshly owned data,
or (via `El::LockedView(output, input)`) a read-only alias of the parent's
activation buffer, created without copying. -/
inductive OutputBuf
  | owned (data : List ℚ)
  | lockedViewOfInput
  deriving DecidableEq

/-- Resolve an output buffer to the data it exposes, given the input buffer
that a locked view would alias. -/
def OutputBuf.resolve (input : List ℚ) : OutputBuf → List ℚ
  | OutputBuf.owned d => d
  | OutputBuf.lockedViewOfInput => input

/-! ## Entrywise activation layers (`id.hpp`) -/

/-- `id_layer::activation_function`: `return z;`. -/
def id_activation_function (z : ℚ) : ℚ := z

/-- `id_layer::activation_function_gradient`: `return z;` (the source returns
its argument, not the constant 1). -/
def id_activation_function_gradient (z : ℚ) : ℚ := z

/-- `relu_layer::activation`: `return x > DataType(0) ? x : DataType(0);`. -/
def relu_activation (x : ℚ) : ℚ := if 0 < x then x else 0

/-- `relu_layer::activation_derivative`:
`return x > DataType(0) ? DataType(1) : DataType(0);`. -/
def relu_activation_derivative (x : ℚ) : ℚ := if 0 < x then 1 else 0

/-- C3: the identity layer's scalar function does satisfy `f(z) = z`, but its
scalar derivative method returns its argument `z`, not the constant 1: at
`z = 2` the code yields 2 where the spec requires 1. -/
theorem id_layer_gradient_returns_input :
    id_activation_function 2 = 2
    ∧ id_activation_function_gradient 2 = 2
    ∧ (2 : ℚ) ≠ 1 := by
  refine ⟨rfl, rfl, by norm_num⟩

/-- C8: the rectified-linear scalar function satisfies `f(x) = max x 0`
(hence `0 ≤ f(x)`), its derivative is 1 for positive inputs and 0 otherwise,
and in particular the derivative at exactly 0 is 0. -/
theorem relu_activation_spec (x : ℚ) :
    relu_activation x = max x 0
    ∧ 0 ≤ relu_activation x
    ∧ relu_activation_derivative x = (if 0 < x then 1 else 0)
    ∧ relu_activation_derivative 0 = 0 := by
  unfold relu_activation relu_activation_derivative
  refine ⟨?_, ?_, rfl, by norm_num⟩
  · by_cases h : 0 < x
    · simp [h, le_of_lt h, max_eq_left]
    · simp [h, max_eq_right (le_of_not_lt h)]
  · by_cases h : 0 < x
    · simp [h, le_of_lt h]
    · simp [h]

/-- C9 counterexample: at the negative input `-1` the rectified-linear
function is nevertheless idempotent (`f (f (-1)) = f (-1)`), refuting the
claim that idempotence fails for some input unless every input is
non-negative. -/
theorem relu_idempotent_on_negative_cex :
    relu_activation (relu_activation (-1)) = relu_activation (-1)
    ∧ ¬ (0 ≤ (-1 : ℚ)) := by
  refine ⟨?_, by norm_num⟩
  norm_num [relu_activation]

/-- C9 amended: the rectified-linear scalar function is idempotent under
repeated application for every input, regardless of sign; it fixes its input
(`f x = x`) exactly when the input is non-negative. -/
theorem relu_idempotent_everywhere (x : ℚ) :
    relu_activation (relu_activation x) = relu_activation x
    ∧ (relu_activation x = x ↔ 0 ≤ x) := by
  unfold relu_activation
  by_cases h : 0 < x
  · simp [h, le_of_lt h]
  · have hx : x ≤ 0 := le_of_not_lt h
    simp only [if_neg h, lt_irrefl, if_neg (lt_irrefl 0).elim]
    constructor
    · simp
    · constructor
      · intro h0
        rw [← h0]
      · intro h0
        exact le_antisymm hx h0 |>.symm ▸ rfl

/-! ## Dropout regularizer, CPU paths (`dropout.hpp`) -/

/-- `dropout::fp_compute_cpu`.  The layer state passed in is the keep
probability `keep_prob` and the current mask buffer `mask`; `u i` is the
`i`-th uniform draw in `[0,1)` consumed by `std::bernoulli_distribution
(m_keep_prob)` (which returns `u i < keep_prob`) on the fast generator.
If dropout is disabled (`mode != training || m_keep_prob < 0`) the output is
made a locked view of the input and nothing else happens.  Otherwise the mask
is resized to the input's shape and refilled entrywise with
`scale = 1 / keep_prob` on a successful draw and 0 otherwise
(`El::EntrywiseMap`), and the output is `El::Hadamard(input, mask)`.
Returns (output buffer, mask buffer after the call). -/
def dropout_fp_compute_cpu (mode : ExecutionMode) (keep_prob : ℚ) (u : ℕ → ℚ)
    (input mask : List ℚ) : OutputBuf × List ℚ :=
  if mode ≠ ExecutionMode.training ∨ keep_prob < 0 then
    (OutputBuf.lockedViewOfInput, mask)
  else
    let scale := 1 / keep_prob
    let mask2 := (List.range input.length).map
      (fun i => if u i < keep_prob then scale else 0)
    (OutputBuf.owned (List.zipWith (· * ·) input mask2), mask2)

/-- `dropout::bp_compute_cpu`.  If dropout is disabled this is
`El::Axpy(1, gradient_wrt_output, gradient_wrt_input)`.  Otherwise
`El::Hadamard(gradient_wrt_output, *m_mask, *m_mask)` overwrites the mask in
place with the elementwise product, and `El::Axpy(1, *m_mask,
gradient_wrt_input)` accumulates that product into the input gradient.
Returns (gradient-wrt-input buffer, mask buffer after the call). -/
def dropout_bp_compute_cpu (mode : ExecutionMode) (keep_prob : ℚ)
    (gwo gwi mask : List ℚ) : List ℚ × List ℚ :=
  if mode ≠ ExecutionMode.training ∨ keep_prob < 0 then
    (List.zipWith (· + ·) gwi gwo, mask)
  else
    let mask2 := List.zipWith (· * ·) gwo mask
    (List.zipWith (· + ·) gwi mask2, mask2)

/-! ## Dropout regularizer, GPU paths (`dropout.hpp`)

The cuDNN calls are external to the repository; `cudnn::set_tensor_desc(d, m)`
configures descriptor `d` from matrix `m`, so a descriptor is modelled as the
local shape it was configured with together with which buffer it was
configured from.  `cudnnDropoutForward` writes `output := gpu_mask ⊙ input`
(the library's internal scaled mask) and `cudnnDropoutBackward` writes
`gradient_wrt_input := reserve_mask ⊙ gradient_wrt_output`, overwriting the
output buffer it is handed — as the source itself notes at the backward call
("technically incorrect since it overwrites the error signal").
Reserve-space sizing is omitted (no claim concerns it). -/

/-- The buffer a cuDNN tensor descriptor was configured from. -/
inductive BufferRole
  | input
  | output
  | gradWrtOutput
  | gradWrtInput
  deriving DecidableEq

/-- A cuDNN tensor descriptor: the local shape it describes and the buffer
`cudnn::set_tensor_desc` configured it from. -/
structure TensorDesc where
  shape : ℕ
  configuredFrom : BufferRole
  deriving DecidableEq

/-- Result of `dropout::fp_compute_gpu`: the output buffer, the input/output
tensor descriptors after the call, and whether the cuDNN kernel was
invoked. -/
structure GpuFpResult where
  output : OutputBuf
  desc_input : Option TensorDesc
  desc_output : Option TensorDesc
  kernel_invoked : Bool
  deriving DecidableEq

/-- Result of `dropout::bp_compute_gpu`: the gradient-wrt-input buffer, the
two gradient tensor descriptors after the call, and whether the cuDNN kernel
was invoked. -/
structure GpuBpResult where
  gradient_wrt_input : List ℚ
  desc_gwo : Option TensorDesc
  desc_gwi : Option TensorDesc
  kernel_invoked : Bool
  deriving DecidableEq

/-- `dropout::fp_compute_gpu`.  Disabled dropout makes the output a locked
view of the input; an empty local input skips the kernel; otherwise
`m_input_cudnn_desc` is configured from `local_input`, `m_output_cudnn_desc`
from `local_output`, and `cudnnDropoutForward` fills the output from the
input under the library's internal mask `gpu_mask`. -/
def dropout_fp_compute_gpu (mode : ExecutionMode) (keep_prob : ℚ)
    (input output : List ℚ) (gpu_mask : ℕ → ℚ)
    (desc_in desc_out : Option TensorDesc) : GpuFpResult :=
  if mode ≠ ExecutionMode.training ∨ keep_prob < 0 then
    ⟨OutputBuf.lockedViewOfInput, desc_in, desc_out, false⟩
  else if input.length < 1 ∧ output.length < 1 then
    ⟨OutputBuf.owned output, desc_in, desc_out, false⟩
  else
    ⟨OutputBuf.owned
        ((List.range input.length).map (fun i => gpu_mask i * input.getD i 0)),
      some ⟨input.length, BufferRole.input⟩,
      some ⟨output.length, BufferRole.output⟩,
      true⟩

/-- `dropout::bp_compute_gpu`.  Disabled dropout accumulates
(`El::Axpy(1, gradient_wrt_output, gradient_wrt_input)`); otherwise, when the
local gradient-wrt-input is nonempty, the source configures
`m_gradient_wrt_input_cudnn_desc` from `local_gradient_wrt_output` and
`m_gradient_wrt_output_cudnn_desc` from `local_gradient_wrt_input`
(lines 333–336, in that order), then `cudnnDropoutBackward` pairs
`m_gradient_wrt_output_cudnn_desc` with the gradient-wrt-output buffer and
`m_gradient_wrt_input_cudnn_desc` with the gradient-wrt-input buffer, writing
`reserve_mask ⊙ gwo` over the gradient-wrt-input buffer. -/
def dropout_bp_compute_gpu (mode : ExecutionMode) (keep_prob : ℚ)
    (gwo gwi reserve_mask : List ℚ)
    (desc_gwo desc_gwi : Option TensorDesc) : GpuBpResult :=
  if mode ≠ ExecutionMode.training ∨ keep_prob < 0 then
    ⟨List.zipWith (· + ·) gwi gwo, desc_gwo, desc_gwi, false⟩
  else if 0 < gwi.length then
    ⟨List.zipWith (· * ·) reserve_mask gwo,
      some ⟨gwi.length, BufferRole.gradWrtInput⟩,
      some ⟨gwo.length, BufferRole.gradWrtOutput⟩,
      true⟩
  else
    ⟨gwi, desc_gwo, desc_gwi, false⟩

/-! ## Helper lemmas -/

theorem getD_range_map (f : ℕ → ℚ) (n i : ℕ) (h : i < n) :
    ((List.range n).map f).getD i 0 = f i := by
  rw [List.getD_eq_getElem?_getD, List.getElem?_map, List.getElem?_range h]
  rfl

theorem zipWith_mul_replicate_one (l : List ℚ) :
    List.zipWith (· * ·) l (List.replicate l.length 1) = l := by
  induction l with
  | nil => rfl
  | cons a t ih => simp [List.replicate_succ, ih]

/-- Equation lemma: the enabled branch of `dropout::fp_compute_cpu`
(training mode, non-negative keep probability). -/
theorem dropout_fp_cpu_enabled_eq (p : ℚ) (u : ℕ → ℚ) (input mask0 : List ℚ)
    (h0 : 0 ≤ p) :
    dropout_fp_compute_cpu ExecutionMode.training p u input mask0 =
      (OutputBuf.owned (List.zipWith (· * ·) input
          ((List.range input.length).map (fun i => if u i < p then 1 / p else 0))),
        (List.range input.length).map (fun i => if u i < p then 1 / p else 0)) := by
  unfold dropout_fp_compute_cpu
  rw [if_neg]
  rintro (h | h)
  · exact h rfl
  · exact absurd h (not_lt.mpr h0)

/-! ## Claim theorems about dropout -/

/-- C1: the GPU backward path of dropout in training mode (keep probability
1/2, local gradient-wrt-output `[3]`, previously accumulated
gradient-wrt-input `[5]`, reserve-space mask `[2]`) overwrites the
gradient-wrt-input buffer with `mask ⊙ gwo = [6]` instead of accumulating to
`5 + 2*3 = 11`, while the CPU backward path at the same input does
accumulate — confirming the source's own note that the GPU path
"overwrites the error signal". -/
theorem dropout_bp_gpu_overwrites_error_signal :
    (dropout_bp_compute_gpu ExecutionMode.training (1/2) [3] [5] [2]
        none none).gradient_wrt_input = [6]
    ∧ ((6 : ℚ) ≠ 5 + 2 * 3)
    ∧ (dropout_bp_compute_cpu ExecutionMode.training (1/2) [3] [5] [2]).1
        = [5 + 2 * 3] := by
  refine ⟨?_, by norm_num, ?_⟩
  · norm_num [dropout_bp_compute_gpu]
  · norm_num [dropout_bp_compute_cpu]

/-- C2: in training mode with keep probability `p ∈ (0,1]`, the CPU dropout
forward pass stores a mask of the input's length whose `i`-th entry is `1/p`
exactly when the `i`-th Bernoulli(p) draw succeeds (`u i < p`) and 0
otherwise, and the output is the entrywise product of the input with that
stored mask. -/
theorem dropout_fp_cpu_bernoulli_mask (p : ℚ) (u : ℕ → ℚ) (input mask0 : List ℚ)
    (h0 : 0 < p) (h1 : p ≤ 1) :
    OutputBuf.resolve input
        (dropout_fp_compute_cpu ExecutionMode.training p u input mask0).1
      = List.zipWith (· * ·) input
          (dropout_fp_compute_cpu ExecutionMode.training p u input mask0).2
    ∧ (dropout_fp_compute_cpu ExecutionMode.training p u input mask0).2.length
        = input.length
    ∧ ∀ i, i < input.length →
        (dropout_fp_compute_cpu ExecutionMode.training p u input mask0).2.getD i 0
            = (if u i < p then 1 / p else 0)
        ∧ ((dropout_fp_compute_cpu ExecutionMode.training p u input mask0).2.getD i 0
              = 1 / p ↔ u i < p) := by
  rw [dropout_fp_cpu_enabled_eq p u input mask0 (le_of_lt h0)]
  refine ⟨rfl, by simp, ?_⟩
  intro i hi
  simp only
  rw [getD_range_map _ _ _ hi]
  refine ⟨rfl, ?_⟩
  by_cases hu : u i < p
  · simp [hu]
  · rw [if_neg hu]
    constructor
    · intro h
      exact absurd h.symm (one_div_ne_zero (ne_of_gt h0))
    · intro h
      exact absurd h hu

theorem dropout_fp_cpu_bernoulli_mask_witness :
    (0 : ℚ) < 1/2 ∧ (1/2 : ℚ) ≤ 1
    ∧ (OutputBuf.resolve [4]
          (dropout_fp_compute_cpu ExecutionMode.training (1/2) (fun j => 1/4) [4] []).1
        = List.zipWith (· * ·) [4]
            (dropout_fp_compute_cpu ExecutionMode.training (1/2) (fun j => 1/4) [4] []).2
      ∧ (dropout_fp_compute_cpu ExecutionMode.training (1/2) (fun j => 1/4) [4] []).2.length
          = ([4] : List ℚ).length
      ∧ ∀ i, i < ([4] : List ℚ).length →
          (dropout_fp_compute_cpu ExecutionMode.training (1/2) (fun j => 1/4) [4] []).2.getD i 0
              = (if (1/4 : ℚ) < 1/2 then 1 / (1/2 : ℚ) else 0)
          ∧ ((dropout_fp_compute_cpu ExecutionMode.training (1/2) (fun j => 1/4) [4] []).2.getD i 0
                = 1 / (1/2 : ℚ) ↔ (1/4 : ℚ) < 1/2)) :=
  ⟨by norm_num, by norm_num,
    dropout_fp_cpu_bernoulli_mask (1/2) (fun j => 1/4) [4] [] (by norm_num) (by norm_num)⟩

/-- C4: whenever dropout is disabled (mode is not training, or the keep
probability is negative — in particular with the negative sentinel this holds
in every execution mode), the CPU and GPU forward passes make the output a
locked (read-only, no-copy) view of the input, the CPU and GPU backward
passes accumulate the gradient-wrt-output into the gradient-wrt-input
unscaled, and the mask buffer and GPU descriptors are left untouched. -/
theorem dropout_disabled_passthrough (mode : ExecutionMode) (keep_prob : ℚ)
    (u : ℕ → ℚ) (input output mask gwo gwi rmask : List ℚ) (gpu_mask : ℕ → ℚ)
    (d1 d2 d3 d4 : Option TensorDesc)
    (hdis : mode ≠ ExecutionMode.training ∨ keep_prob < 0) :
    dropout_fp_compute_cpu mode keep_prob u input mask
        = (OutputBuf.lockedViewOfInput, mask)
    ∧ dropout_bp_compute_cpu mode keep_prob gwo gwi mask
        = (List.zipWith (· + ·) gwi gwo, mask)
    ∧ dropout_fp_compute_gpu mode keep_prob input output gpu_mask d1 d2
        = ⟨OutputBuf.lockedViewOfInput, d1, d2, false⟩
    ∧ dropout_bp_compute_gpu mode keep_prob gwo gwi rmask d3 d4
        = ⟨List.zipWith (· + ·) gwi gwo, d3, d4, false⟩ := by
  refine ⟨?_, ?_, ?_, ?_⟩
  · unfold dropout_fp_compute_cpu
    rw [if_pos hdis]
  · unfold dropout_bp_compute_cpu
    rw [if_pos hdis]
  · unfold dropout_fp_compute_gpu
    rw [if_pos hdis]
  · unfold dropout_bp_compute_gpu
    rw [if_pos hdis]

theorem dropout_disabled_passthrough_witness :
    (ExecutionMode.validation ≠ ExecutionMode.training ∨ (1/2 : ℚ) < 0)
    ∧ (dropout_fp_compute_cpu ExecutionMode.validation (1/2) (fun j => 0) [2] [9]
          = (OutputBuf.lockedViewOfInput, [9])
      ∧ dropout_bp_compute_cpu ExecutionMode.validation (1/2) [3] [5] [9]
          = (List.zipWith (· + ·) [5] [3], [9])
      ∧ dropout_fp_compute_gpu ExecutionMode.validation (1/2) [2] [0] (fun j => 1) none none
          = ⟨OutputBuf.lockedViewOfInput, none, none, false⟩
      ∧ dropout_bp_compute_gpu ExecutionMode.validation (1/2) [3] [5] [9] none none
          = ⟨List.zipWith (· + ·) [5] [3], none, none, false⟩) :=
  ⟨Or.inl (fun h => ExecutionMode.noConfusion h),
    dropout_disabled_passthrough ExecutionMode.validation (1/2) (fun j => 0)
      [2] [0] [9] [3] [5] [9] (fun j => 1) none none none none
      (Or.inl (fun h => ExecutionMode.noConfusion h))⟩

/-- C5 counterexample: with keep probability exactly 1 in training mode, the
CPU forward pass at input `[2]` with previously stored mask `[5, 7]` resizes
the mask to length 1 and rewrites it to `[1]`; the claim that the mask is
neither resized nor rewritten is false. -/
theorem dropout_p1_mask_side_effects_cex :
    (dropout_fp_compute_cpu ExecutionMode.training 1 (fun j => 0) [2] [5, 7]).2 = [1]
    ∧ ([1] : List ℚ) ≠ [5, 7] := by
  constructor
  · norm_num [dropout_fp_compute_cpu, List.range_succ]
  · simp

/-- C5 amended: with keep probability exactly 1 in training mode and uniform
draws in `[0,1)`, the CPU forward output equals the input exactly; however
the mask buffer is resized to the input's length and every entry rewritten to
1 (the scale `1/p = 1`). -/
theorem dropout_fp_cpu_keep_prob_one (u : ℕ → ℚ) (input mask0 : List ℚ)
    (hu : ∀ i, 0 ≤ u i ∧ u i < 1) :
    (dropout_fp_compute_cpu ExecutionMode.training 1 u input mask0).1
        = OutputBuf.owned input
    ∧ (dropout_fp_compute_cpu ExecutionMode.training 1 u input mask0).2
        = List.replicate input.length 1 := by
  rw [dropout_fp_cpu_enabled_eq 1 u input mask0 (by norm_num)]
  have hm : (List.range input.length).map (fun i => if u i < 1 then 1 / (1:ℚ) else 0)
      = List.replicate input.length 1 := by
    have hcg : ∀ i ∈ List.range input.length,
        (if u i < 1 then 1 / (1:ℚ) else 0) = (fun j => (1:ℚ)) i := by
      intro i _
      rw [if_pos (hu i).2]
      norm_num
    rw [List.map_congr_left hcg, List.map_const', List.length_range]
  refine ⟨?_, hm⟩
  simp only [hm]
  rw [zipWith_mul_replicate_one]

theorem dropout_fp_cpu_keep_prob_one_witness :
    (∀ i : ℕ, 0 ≤ (0:ℚ) ∧ (0:ℚ) < 1)
    ∧ ((dropout_fp_compute_cpu ExecutionMode.training 1 (fun j => 0) [2, 3] []).1
          = OutputBuf.owned [2, 3]
      ∧ (dropout_fp_compute_cpu ExecutionMode.training 1 (fun j => 0) [2, 3] []).2
          = List.replicate ([2, 3] : List ℚ).length 1) :=
  ⟨fun i => ⟨le_refl 0, by norm_num⟩,
    dropout_fp_cpu_keep_prob_one (fun j => 0) [2, 3] []
      (fun i => ⟨le_refl 0, by norm_num⟩)⟩

/-- C10: in training mode with dropout enabled (non-negative keep
probability), the CPU backward pass overwrites the stored mask in place with
the elementwise product of the gradient-wrt-output and the old mask, and
accumulates exactly that product into the gradient-wrt-input. -/
theorem dropout_bp_cpu_overwrites_mask (keep_prob : ℚ) (gwo gwi mask : List ℚ)
    (h : 0 ≤ keep_prob) :
    (dropout_bp_compute_cpu ExecutionMode.training keep_prob gwo gwi mask).2
        = List.zipWith (· * ·) gwo mask
    ∧ (dropout_bp_compute_cpu ExecutionMode.training keep_prob gwo gwi mask).1
        = List.zipWith (· + ·) gwi (List.zipWith (· * ·) gwo mask) := by
  unfold dropout_bp_compute_cpu
  rw [if_neg]
  · exact ⟨rfl, rfl⟩
  · rintro (hc | hc)
    · exact hc rfl
    · exact absurd hc (not_lt.mpr h)

theorem dropout_bp_cpu_overwrites_mask_witness :
    (0 : ℚ) ≤ 1/2
    ∧ (dropout_bp_compute_cpu ExecutionMode.training (1/2) [3] [0] [2]).2
        = List.zipWith (· * ·) [3] [2] :=
  ⟨by norm_num, (dropout_bp_cpu_overwrites_mask (1/2) [3] [0] [2] (by norm_num)).1⟩

/-- C7 counterexample: in the GPU backward pass (training, keep probability
1/2, local gradients of length 2) the descriptor passed alongside the
gradient-wrt-output buffer (`m_gradient_wrt_output_cudnn_desc`) was
configured from the gradient-wrt-**input** buffer, not from the buffer it is
paired with: the two `set_tensor_desc` calls are swapped. -/
theorem dropout_bp_gpu_desc_swapped_cex :
    (dropout_bp_compute_gpu ExecutionMode.training (1/2) [3, 4] [5, 6] [2, 2]
        none none).desc_gwo = some ⟨2, BufferRole.gradWrtInput⟩
    ∧ BufferRole.gradWrtInput ≠ BufferRole.gradWrtOutput := by
  refine ⟨?_, by decide⟩
  norm_num [dropout_bp_compute_gpu]

/-- C7 amended: whenever a GPU dropout kernel is invoked, every tensor
descriptor passed to it has a shape equal to the local shape of the buffer it
is paired with — in the forward pass because each descriptor is configured
from its own buffer, and in the backward pass because, although the two
gradient descriptors are configured from each other's buffers (swapped), the
two local gradient buffers have equal shapes. -/
theorem dropout_gpu_descriptor_shape_match (keep_prob : ℚ)
    (input output gwo gwi rmask : List ℚ) (gpu_mask : ℕ → ℚ)
    (d1 d2 d3 d4 : Option TensorDesc)
    (hlen : gwo.length = gwi.length) :
    ((dropout_fp_compute_gpu ExecutionMode.training keep_prob input output
          gpu_mask d1 d2).kernel_invoked = true →
      (dropout_fp_compute_gpu ExecutionMode.training keep_prob input output
          gpu_mask d1 d2).desc_input = some ⟨input.length, BufferRole.input⟩
      ∧ (dropout_fp_compute_gpu ExecutionMode.training keep_prob input output
          gpu_mask d1 d2).desc_output = some ⟨output.length, BufferRole.output⟩)
    ∧ ((dropout_bp_compute_gpu ExecutionMode.training keep_prob gwo gwi rmask
          d3 d4).kernel_invoked = true →
      ∃ dgo dgi : TensorDesc,
        (dropout_bp_compute_gpu ExecutionMode.training keep_prob gwo gwi rmask
            d3 d4).desc_gwo = some dgo
        ∧ (dropout_bp_compute_gpu ExecutionMode.training keep_prob gwo gwi rmask
            d3 d4).desc_gwi = some dgi
        ∧ dgo.shape = gwo.length ∧ dgi.shape = gwi.length) := by
  constructor
  · unfold dropout_fp_compute_gpu
    split
    · intro hk
      simp at hk
    · split
      · intro hk
        simp at hk
      · intro _
        exact ⟨rfl, rfl⟩
  · unfold dropout_bp_compute_gpu
    split
    · intro hk
      simp at hk
    · split
      · intro _
        exact ⟨⟨gwi.length, BufferRole.gradWrtInput⟩,
          ⟨gwo.length, BufferRole.gradWrtOutput⟩, rfl, rfl, hlen.symm, hlen⟩
      · intro hk
        simp at hk

theorem dropout_gpu_descriptor_shape_match_witness :
    ([3] : List ℚ).length = ([5] : List ℚ).length
    ∧ (((dropout_fp_compute_gpu ExecutionMode.training (1/2) [1] [1]
            (fun j => 1) none none).kernel_invoked = true →
        (dropout_fp_compute_gpu ExecutionMode.training (1/2) [1] [1]
            (fun j => 1) none none).desc_input
            = some ⟨([1] : List ℚ).length, BufferRole.input⟩
        ∧ (dropout_fp_compute_gpu ExecutionMode.training (1/2) [1] [1]
            (fun j => 1) none none).desc_output
            = some ⟨([1] : List ℚ).length, BufferRole.output⟩)
      ∧ ((dropout_bp_compute_gpu ExecutionMode.training (1/2) [3] [5] [2]
            none none).kernel_invoked = true →
        ∃ dgo dgi : TensorDesc,
          (dropout_bp_compute_gpu ExecutionMode.training (1/2) [3] [5] [2]
              none none).desc_gwo = some dgo
          ∧ (dropout_bp_compute_gpu ExecutionMode.training (1/2) [3] [5] [2]
              none none).desc_gwi = some dgi
          ∧ dgo.shape = ([3] : List ℚ).length
          ∧ dgi.shape = ([5] : List ℚ).length)) :=
  ⟨rfl, dropout_gpu_descriptor_shape_match (1/2) [1] [1] [3] [5] [2]
    (fun j => 1) none none none none rfl⟩

/-! ## Covariance layer (`covariance_impl.hpp`) -/

/-- A parent layer as seen by `covariance_layer::setup_dims`: its name
(`get_name()`) and the tensor dimensions of its output
(`get_input_dims(i)` on the covariance layer). -/
structure ParentInfo where
  name : String
  dims : List ℕ
  deriving DecidableEq

/-- The inner loop of the error-message builder: for each dimension `d` at
loop index `j`, `err << (j > 0 ? " x " : "") << dims[j]`. -/
def dims_desc_aux : ℕ → List ℕ → String
  | _, [] => ""
  | j, d :: rest =>
      (if 0 < j then " x " else "") ++ toString d ++ dims_desc_aux (j + 1) rest

/-- Rendering of one parent's dimension list, e.g. `"4 x 5"`. -/
def dims_desc (dims : List ℕ) : String := dims_desc_aux 0 dims

/-- The outer loop of the error-message builder: for each parent at loop
index `i`,
`err << (i > 0 ? ", " : "") << "layer \"" << name << "\" outputs " << dims`. -/
def parents_desc_aux : ℕ → List ParentInfo → String
  | _, [] => ""
  | i, p :: rest =>
      (if 0 < i then ", " else "") ++ "layer \"" ++ p.name ++ "\" outputs "
        ++ dims_desc p.dims ++ parents_desc_aux (i + 1) rest

/-- Rendering of all parents in the error message. -/
def parents_desc (parents : List ParentInfo) : String := parents_desc_aux 0 parents

/-- The full message passed to `LBANN_ERROR` by
`covariance_layer::setup_dims` on a shape mismatch. -/
def covariance_mismatch_message (type lname : String)
    (parents : List ParentInfo) : String :=
  type ++ " layer \"" ++ lname ++ "\" has input tensors with different dimensions ("
    ++ parents_desc parents ++ ")"

/-- `covariance_layer::setup_dims`: sets the output dimensions to `{1}` and
then, if the two parents' input dimensions differ, throws (`LBANN_ERROR`)
with the descriptive message.  Returns (output dims, raised error if any). -/
def covariance_setup_dims (type lname : String) (parents : List ParentInfo) :
    List ℕ × Option String :=
  if (parents.getD 0 ⟨"", []⟩).dims ≠ (parents.getD 1 ⟨"", []⟩).dims then
    ([1], some (covariance_mismatch_message type lname parents))
  else
    ([1], none)

/-- Configuration state of a covariance layer after the external driver runs
`setup_dims` and then, only if it did not throw, `setup_data` (which is what
allocates the `m_means` and `m_workspace` buffers). -/
structure CovarianceSetupState where
  output_dims : Option (List ℕ)
  means_allocated : Bool
  workspace_allocated : Bool
  deriving DecidableEq

/-- The covariance configuration sequence: `setup_dims` followed on success
by `setup_data`.  An `LBANN_ERROR` in `setup_dims` aborts configuration, so
`setup_data` never runs and no auxiliary buffer is allocated. -/
def covariance_setup (type lname : String) (parents : List ParentInfo) :
    CovarianceSetupState × Option String :=
  if (parents.getD 0 ⟨"", []⟩).dims ≠ (parents.getD 1 ⟨"", []⟩).dims then
    (⟨some (covariance_setup_dims type lname parents).1, false, false⟩,
      (covariance_setup_dims type lname parents).2)
  else
    (⟨some (covariance_setup_dims type lname parents).1, true, true⟩, none)

/-- `piece` occurs verbatim inside `msg`. -/
def mentions (msg piece : String) : Prop :=
  ∃ s t : List Char, msg.data = s ++ piece.data ++ t

theorem mentions_left (a : String) {b piece : String} (h : mentions b piece) :
    mentions (a ++ b) piece := by
  obtain ⟨s, t, hb⟩ := h
  exact ⟨a.data ++ s, t, by simp [String.data_append, hb]⟩

theorem mentions_right (c : String) {b piece : String} (h : mentions b piece) :
    mentions (b ++ c) piece := by
  obtain ⟨s, t, hb⟩ := h
  exact ⟨s, t ++ c.data, by simp [String.data_append, hb]⟩

/-- Every parent's name and rendered dimensions occur in the output of the
message loop, at any starting loop index. -/
theorem parents_desc_aux_mentions (l : List ParentInfo) :
    ∀ (i : ℕ) (p : ParentInfo), p ∈ l →
      mentions (parents_desc_aux i l) p.name
      ∧ mentions (parents_desc_aux i l) (dims_desc p.dims) := by
  induction l with
  | nil =>
    intro i p hp
    cases hp
  | cons q rest ih =>
    intro i p hp
    rcases List.mem_cons.mp hp with h | h
    · subst h
      constructor
      · exact ⟨((if 0 < i then ", " else "") ++ "layer \"").data,
          ("\" outputs " ++ dims_desc p.dims ++ parents_desc_aux (i + 1) rest).data,
          by simp [parents_desc_aux, String.data_append]⟩
      · exact ⟨((if 0 < i then ", " else "") ++ "layer \"" ++ p.name
            ++ "\" outputs ").data,
          (parents_desc_aux (i + 1) rest).data,
          by simp [parents_desc_aux, String.data_append]⟩
    · have hrest := ih (i + 1) p h
      have hshape : parents_desc_aux i (q :: rest)
          = ((if 0 < i then ", " else "") ++ "layer \"" ++ q.name
              ++ "\" outputs " ++ dims_desc q.dims)
            ++ parents_desc_aux (i + 1) rest := by
        simp [parents_desc_aux, String.append_assoc]
      rw [hshape]
      exact ⟨mentions_left _ hrest.1, mentions_left _ hrest.2⟩

/-- The mismatch message mentions every parent layer's name and its rendered
dimensions. -/
theorem covariance_message_mentions (type lname : String)
    (parents : List ParentInfo) (p : ParentInfo) (hp : p ∈ parents) :
    mentions (covariance_mismatch_message type lname parents) p.name
    ∧ mentions (covariance_mismatch_message type lname parents)
        (dims_desc p.dims) := by
  have h := parents_desc_aux_mentions parents 0 p hp
  unfold covariance_mismatch_message
  exact ⟨mentions_right _ (mentions_left _ h.1),
    mentions_right _ (mentions_left _ h.2)⟩

/-- C6: if the covariance layer's two parents report different input
dimensions, configuration fails in `setup_dims` with the descriptive message
— which names every parent layer together with that parent's dimensions —
and neither auxiliary buffer is ever allocated; if the dimensions agree,
configuration succeeds (output dims `{1}`, buffers allocated, no error). -/
theorem covariance_setup_dims_shape_check (type lname : String)
    (parents : List ParentInfo) :
    ((parents.getD 0 ⟨"", []⟩).dims ≠ (parents.getD 1 ⟨"", []⟩).dims →
      covariance_setup type lname parents
          = (⟨some [1], false, false⟩,
              some (covariance_mismatch_message type lname parents))
      ∧ ∀ p ∈ parents,
          mentions (covariance_mismatch_message type lname parents) p.name
          ∧ mentions (covariance_mismatch_message type lname parents)
              (dims_desc p.dims))
    ∧ ((parents.getD 0 ⟨"", []⟩).dims = (parents.getD 1 ⟨"", []⟩).dims →
      covariance_setup type lname parents = (⟨some [1], true, true⟩, none)) := by
  constructor
  · intro hne
    constructor
    · unfold covariance_setup covariance_setup_dims
      rw [if_pos hne, if_pos hne]
    · intro p hp
      exact covariance_message_mentions type lname parents p hp
  · intro heq
    unfold covariance_setup covariance_setup_dims
    rw [if_neg (fun h => h heq), if_neg (fun h => h heq)]

theorem covariance_setup_dims_shape_check_witness :
    (([⟨"parent0", [4, 4]⟩, ⟨"parent1", [4, 5]⟩] : List ParentInfo).getD 0
          ⟨"", []⟩).dims
        ≠ (([⟨"parent0", [4, 4]⟩, ⟨"parent1", [4, 5]⟩] : List ParentInfo).getD 1
          ⟨"", []⟩).dims
    ∧ covariance_setup "covariance" "cov"
          [⟨"parent0", [4, 4]⟩, ⟨"parent1", [4, 5]⟩]
        = (⟨some [1], false, false⟩,
            some (covariance_mismatch_message "covariance" "cov"
              [⟨"parent0", [4, 4]⟩, ⟨"parent1", [4, 5]⟩])) :=
  ⟨by decide,
    ((covariance_setup_dims_shape_check "covariance" "cov"
      [⟨"parent0", [4, 4]⟩, ⟨"parent1", [4, 5]⟩]).1 (by decide)).1⟩

end Lbann
